import Mathlib

/-!
# DetachedTrackingVolume (ACTS) : clone, move, realign, base transform, signing

Shallow embedding of `Core/src/Detector/DetachedTrackingVolume.cpp`.

* `std::shared_ptr<const X>` members are `Option X` (`none` is the empty pointer); the
  pointee is held by value.
* `const Transform3D*` (the raw, manually released base transform, and the pointer
  arguments of `setBaseTransform` / `realign`) is `Option Addr` into an explicit free
  store `Heap`, so that `new` and `delete` are visible.
* Dereferencing an empty pointer, and reading or deleting through an address that is not
  live, is undefined behaviour in C++; here every operation returns `Except Fault _`
  and reports it.
* `Transform3D`, `TrackingVolume`, `Layer`, `GeometrySignature`, `GeometryType` and the
  member functions of the latter that the file calls are declared in headers outside
  this source tree: they are type parameters and the record `Collaborators`.
-/

namespace Acts

/-- The two ways the C++ code can leave defined behaviour in this file. -/
inductive Fault where
  | nullDereference
  | invalidPointer
  deriving DecidableEq, Repr

/-- Address of a `Transform3D` object on the free store. -/
abbrev Addr := Nat

/-- The free store of `Transform3D` objects: cell `a` is `some t` while the object at
address `a` is alive and `none` once it has been deleted. -/
structure Heap (Transform3D : Type) where
  cells : List (Option Transform3D)
  deriving DecidableEq, Repr

namespace Heap

variable {Transform3D : Type}

/-- The live object at address `a`, if any. -/
def read (h : Heap Transform3D) (a : Addr) : Option Transform3D :=
  (h.cells.get? a).join

/-- Allocation, `new Transform3D(t)`: a fresh address holding a copy of `t`. -/
def alloc (h : Heap Transform3D) (t : Transform3D) : Heap Transform3D × Addr :=
  (⟨h.cells ++ [some t]⟩, h.cells.length)

/-- Release of the live object at `a`; deleting what is not alive is a fault. -/
def free (h : Heap Transform3D) (a : Addr) : Except Fault (Heap Transform3D) :=
  match h.read a with
  | some _ => .ok ⟨h.cells.set a none⟩
  | none => .error .invalidPointer

end Heap

/-- Dereference of a possibly empty pointer (`*p`, `p->`). -/
def deref {α : Type} : Option α → Except Fault α
  | some x => .ok x
  | none => .error .nullDereference

/-- Read through a raw address, `*p` with `p` non-null. -/
def load {Transform3D : Type} (h : Heap Transform3D) (a : Addr) : Except Fault Transform3D :=
  match h.read a with
  | some t => .ok t
  | none => .error .invalidPointer

/-- The C++ expression `delete p`: nothing happens for the null pointer. -/
def deleteTransform {Transform3D : Type} (h : Heap Transform3D) :
    Option Addr → Except Fault (Heap Transform3D)
  | none => .ok h
  | some a => h.free a

/-- The operations of `TrackingVolume` and `Layer` that `DetachedTrackingVolume.cpp`
calls. Their definitions live outside this source tree, so they are parameters:
`create` is `TrackingVolume::create(const TrackingVolume&, const Transform3D&)`,
`cloneWithShift` is `Layer::cloneWithShift(const Transform3D&)`, `transform` is
`TrackingVolume::transform()`, and `sign`, `geometrySignature`, `geometryType` are the
members of `TrackingVolume` of the same names. -/
structure Collaborators (Transform3D TrackingVolume Layer GeometrySignature GeometryType : Type)
    where
  create : TrackingVolume → Transform3D → TrackingVolume
  cloneWithShift : Layer → Transform3D → Layer
  transform : TrackingVolume → Transform3D
  sign : TrackingVolume → GeometrySignature → GeometryType → TrackingVolume
  geometrySignature : TrackingVolume → GeometrySignature
  geometryType : TrackingVolume → GeometryType

/-- The data members of `Acts::DetachedTrackingVolume`, in declaration order of the
constructors' initialiser lists. -/
structure DetachedTrackingVolume (TrackingVolume Layer : Type) where
  m_name : String
  m_trkVolume : Option TrackingVolume
  m_layerRepresentation : Option Layer
  m_multilayerRepresentation : List (Option Layer)
  m_baseTransform : Option Addr
  m_constituents : Option Addr
  deriving DecidableEq, Repr

/-- What a mutating member function sees: the free store, `*this`, and a ghost record
of the arguments with which `move` has been invoked so far (oldest first). -/
structure State (Transform3D TrackingVolume Layer : Type) where
  heap : Heap Transform3D
  obj : DetachedTrackingVolume TrackingVolume Layer
  moveCalls : List Transform3D
  deriving DecidableEq, Repr

section Methods

variable {Transform3D TrackingVolume Layer GeometrySignature GeometryType : Type}

/-- The default constructor `DetachedTrackingVolume()`. -/
def defaultConstructor : DetachedTrackingVolume TrackingVolume Layer where
  m_name := "undefined"
  m_trkVolume := none
  m_layerRepresentation := none
  m_multilayerRepresentation := []
  m_baseTransform := none
  m_constituents := none

/-- The constructor `DetachedTrackingVolume(name, volume, layer, multiLayer)`. -/
def constructor (name : String) (volume : Option TrackingVolume) (layer : Option Layer)
    (multiLayer : List (Option Layer)) : DetachedTrackingVolume TrackingVolume Layer where
  m_name := name
  m_trkVolume := volume
  m_layerRepresentation := layer
  m_multilayerRepresentation := multiLayer
  m_baseTransform := none
  m_constituents := none

/-- The destructor: `delete m_baseTransform`. Returns the free store afterwards. -/
def destructor (st : State Transform3D TrackingVolume Layer) :
    Except Fault (Heap Transform3D) :=
  deleteTransform st.heap st.obj.m_baseTransform

/-- The accessor `trackingVolume()`, the raw pointer held by `m_trkVolume`. -/
def trackingVolume (d : DetachedTrackingVolume TrackingVolume Layer) : Option TrackingVolume :=
  d.m_trkVolume

/-- The member `move(const Transform3D&)`. Its body in the source is empty (the intended
statements are commented out under a todo note), so only the ghost call record grows. -/
def move (st : State Transform3D TrackingVolume Layer) (shift : Transform3D) :
    Except Fault (State Transform3D TrackingVolume Layer) :=
  .ok { st with moveCalls := st.moveCalls ++ [shift] }

/-- The range-for of `clone`: each entry is dereferenced, cloned with the shift and
pushed to the back of the output vector. -/
def cloneMultiLayer
    (c : Collaborators Transform3D TrackingVolume Layer GeometrySignature GeometryType)
    (shift : Transform3D) :
    List (Option Layer) → List (Option Layer) → Except Fault (List (Option Layer))
  | [], out => .ok out
  | none :: _, _ => .error .nullDereference
  | some lay :: rest, out =>
      cloneMultiLayer c shift rest (out ++ [some (c.cloneWithShift lay shift)])

/-- The member `clone(name, shift)`. -/
def clone (c : Collaborators Transform3D TrackingVolume Layer GeometrySignature GeometryType)
    (d : DetachedTrackingVolume TrackingVolume Layer) (name : String) (shift : Transform3D) :
    Except Fault (DetachedTrackingVolume TrackingVolume Layer) :=
  match d.m_trkVolume with
  | none => .error .nullDereference
  | some vol =>
    let shiftedTrackingVolume := c.create vol shift
    let layerRepresentation : Option Layer :=
      match d.m_layerRepresentation with
      | some lay => some (c.cloneWithShift lay shift)
      | none => none
    let filled : Except Fault (List (Option Layer)) :=
      if !d.m_multilayerRepresentation.isEmpty then
        cloneMultiLayer c shift d.m_multilayerRepresentation []
      else .ok []
    match filled with
    | .error e => .error e
    | .ok multiLayerRepresentation =>
      .ok (constructor name (some shiftedTrackingVolume) layerRepresentation
            multiLayerRepresentation)

/-- The member `sign(signat, geotype)`: forwarded to the wrapped volume. -/
def sign (c : Collaborators Transform3D TrackingVolume Layer GeometrySignature GeometryType)
    (d : DetachedTrackingVolume TrackingVolume Layer) (signat : GeometrySignature)
    (geotype : GeometryType) : Except Fault (DetachedTrackingVolume TrackingVolume Layer) :=
  match d.m_trkVolume with
  | none => .error .nullDereference
  | some vol => .ok { d with m_trkVolume := some (c.sign vol signat geotype) }

/-- The member `geometrySignature()`. -/
def geometrySignature
    (c : Collaborators Transform3D TrackingVolume Layer GeometrySignature GeometryType)
    (d : DetachedTrackingVolume TrackingVolume Layer) : Except Fault GeometrySignature :=
  match d.m_trkVolume with
  | none => .error .nullDereference
  | some vol => .ok (c.geometrySignature vol)

/-- The member `geometryType()`. -/
def geometryType
    (c : Collaborators Transform3D TrackingVolume Layer GeometrySignature GeometryType)
    (d : DetachedTrackingVolume TrackingVolume Layer) : Except Fault GeometryType :=
  match d.m_trkVolume with
  | none => .error .nullDereference
  | some vol => .ok (c.geometryType vol)

/-- The member `setBaseTransform(transf)`. With a pointer, the pointer is stored; with
the null pointer, the stored object is deleted and a copy of the wrapped volume's
current transform is allocated in its place. -/
def setBaseTransform
    (c : Collaborators Transform3D TrackingVolume Layer GeometrySignature GeometryType)
    (st : State Transform3D TrackingVolume Layer) (transf : Option Addr) :
    Except Fault (State Transform3D TrackingVolume Layer) :=
  match transf with
  | some p => .ok { st with obj := { st.obj with m_baseTransform := some p } }
  | none =>
    match deleteTransform st.heap st.obj.m_baseTransform with
    | .error e => .error e
    | .ok heap1 =>
      match deref (trackingVolume st.obj) with
      | .error e => .error e
      | .ok vol =>
        let fresh := heap1.alloc (c.transform vol)
        .ok { st with heap := fresh.1, obj := { st.obj with m_baseTransform := some fresh.2 } }

/-- The member `realign(transf)`. -/
def realign [Mul Transform3D] [Inv Transform3D]
    (c : Collaborators Transform3D TrackingVolume Layer GeometrySignature GeometryType)
    (st : State Transform3D TrackingVolume Layer) (transf : Option Addr) :
    Except Fault (State Transform3D TrackingVolume Layer) :=
  match transf with
  | some p =>
    match load st.heap p with
    | .error e => .error e
    | .ok target =>
      match deref (trackingVolume st.obj) with
      | .error e => .error e
      | .ok vol => move st (target * (c.transform vol)⁻¹)
  | none =>
    match st.obj.m_baseTransform with
    | some b =>
      match load st.heap b with
      | .error e => .error e
      | .ok target =>
        match deref (trackingVolume st.obj) with
        | .error e => .error e
        | .ok vol => move st (target * (c.transform vol)⁻¹)
    | none => .ok st

end Methods

/-! ## Sample collaborators

A small concrete geometry on which the statements below are evaluated: placements are
the eight rigid motions of a square (`DihedralGroup 4`, quarter turns and flips), a
volume carries a placement and its two tags, a layer carries a placement, and shifting
composes on the left. -/

/-- A sample tracking volume: a placement and the two classification tags. -/
structure SampleVolume where
  placement : DihedralGroup 4
  signature : Nat
  kind : Nat
  deriving DecidableEq

/-- A sample layer: a placement. -/
structure SampleLayer where
  placement : DihedralGroup 4
  deriving DecidableEq

/-- Sample collaborators in which a shift composes on the left of the placement. -/
def sampleCollaborators :
    Collaborators (DihedralGroup 4) SampleVolume SampleLayer Nat Nat where
  create vol shift := { vol with placement := shift * vol.placement }
  cloneWithShift lay shift := { placement := shift * lay.placement }
  transform vol := vol.placement
  sign vol signat geotype := { vol with signature := signat, kind := geotype }
  geometrySignature vol := vol.signature
  geometryType vol := vol.kind

/-- A sample volume placed at a quarter turn. -/
def sampleVolume : SampleVolume := ⟨DihedralGroup.r 1, 0, 0⟩

/-- A sample layer placed at a flip. -/
def sampleLayer : SampleLayer := ⟨DihedralGroup.sr 0⟩

/-- A sample object with a single layer and two multi-layer entries. -/
def sampleDetached : DetachedTrackingVolume SampleVolume SampleLayer :=
  constructor "station" (some sampleVolume) (some sampleLayer)
    [some sampleLayer, some ⟨DihedralGroup.r 2⟩]

/-- A sample object whose multi-layer vector holds an empty pointer. -/
def sampleWithGap : DetachedTrackingVolume SampleVolume SampleLayer :=
  constructor "station" (some sampleVolume) none [some sampleLayer, none]

/-- A sample free store: the object's own base transform at address 0 and a transform
owned by the caller at address 1. -/
def sampleStore : Heap (DihedralGroup 4) :=
  ⟨[some (DihedralGroup.sr 2), some (DihedralGroup.r 3)]⟩

/-- A sample state: the sample object holding the base transform at address 0. -/
def sampleState : State (DihedralGroup 4) SampleVolume SampleLayer where
  heap := sampleStore
  obj := { sampleDetached with m_baseTransform := some 0 }
  moveCalls := []

/-- A sample state right after construction: no base transform, and one transform owned
by the caller at address 0. -/
def freshState : State (DihedralGroup 4) SampleVolume SampleLayer where
  heap := ⟨[some (DihedralGroup.r 3)]⟩
  obj := sampleDetached
  moveCalls := []

/-! ## Layer creator

`ILayerCreator.hpp` only declares `discLayer` as a pure virtual member; the creator
that implements it is not part of this source tree. -/

/-- Modelled from the spec: the error kinds of its section 7. -/
inductive LayerError where
  | InvalidGeometryInput
  | InvalidBinningSpec
  | UnsupportedOperation
  deriving DecidableEq, Repr

/-- Modelled from the spec: a surface, reduced to the extent queries of its section 6
(minimum and maximum along the radial and the longitudinal axis). -/
structure Surface where
  rMin : ℚ
  rMax : ℚ
  zMin : ℚ
  zMax : ℚ
  deriving DecidableEq

/-- Modelled from the spec: a disc layer, that is the referenced surfaces, the disc
bounds, the two bin counts, the optional placement and the approach descriptor. -/
structure DiscLayer (Transform3D ApproachDescriptor : Type) where
  surfaces : List Surface
  layerZmin : ℚ
  layerZmax : ℚ
  layerRmin : ℚ
  layerRmax : ℚ
  binsR : Nat
  binsPhi : Nat
  transform : Option Transform3D
  approachDescriptor : ApproachDescriptor

/-- Modelled from the spec: the implementation of `ILayerCreator::discLayer` (the
overload taking envelopes and bin counts), which is missing from the source tree.
Following sections 4.1, 4.2 and 7 of the spec: an empty surface collection is an
`InvalidGeometryInput`; a zero bin count is an `InvalidBinningSpec`; the bounds are the
extrema of the surfaces widened by the envelopes, and a bound of zero width is an
`InvalidGeometryInput`; otherwise a layer is returned, with the default approach
descriptor when none is handed over. -/
def discLayer {Transform3D ApproachDescriptor : Type} (defaultApproach : ApproachDescriptor)
    (surfaces : List Surface) (envelopeMinR envelopeMaxR envelopeZ : ℚ)
    (binsR binsPhi : Nat) (transform : Option Transform3D)
    (ad : Option ApproachDescriptor) :
    Except LayerError (DiscLayer Transform3D ApproachDescriptor) :=
  match surfaces with
  | [] => .error .InvalidGeometryInput
  | first :: rest =>
    if binsR = 0 ∨ binsPhi = 0 then .error .InvalidBinningSpec
    else
      let layerRmin := rest.foldl (fun m sf => min m sf.rMin) first.rMin - envelopeMinR
      let layerRmax := rest.foldl (fun m sf => max m sf.rMax) first.rMax + envelopeMaxR
      let layerZmin := rest.foldl (fun m sf => min m sf.zMin) first.zMin - envelopeZ
      let layerZmax := rest.foldl (fun m sf => max m sf.zMax) first.zMax + envelopeZ
      if layerRmax ≤ layerRmin ∨ layerZmax ≤ layerZmin then .error .InvalidGeometryInput
      else
        .ok { surfaces := surfaces
              layerZmin := layerZmin
              layerZmax := layerZmax
              layerRmin := layerRmin
              layerRmax := layerRmax
              binsR := binsR
              binsPhi := binsPhi
              transform := transform
              approachDescriptor := ad.getD defaultApproach }

section Lemmas

variable {Transform3D TrackingVolume Layer GeometrySignature GeometryType : Type}

/-- The loop of `clone` over a vector without empty pointers appends the shifted clones
in order. -/
theorem cloneMultiLayer_ok
    (c : Collaborators Transform3D TrackingVolume Layer GeometrySignature GeometryType)
    (shift : Transform3D) (ls out : List (Option Layer)) (h : none ∉ ls) :
    cloneMultiLayer c shift ls out
      = .ok (out ++ ls.map (Option.map (fun lay => c.cloneWithShift lay shift))) := by
  induction ls generalizing out with
  | nil => simp [cloneMultiLayer]
  | cons x rest ih =>
    cases x with
    | none => simp at h
    | some lay =>
      have hrest : none ∉ rest := fun hm => h (List.mem_cons_of_mem _ hm)
      simp [cloneMultiLayer, ih _ hrest]

/-- The loop of `clone` faults as soon as the vector holds an empty pointer. -/
theorem cloneMultiLayer_fault
    (c : Collaborators Transform3D TrackingVolume Layer GeometrySignature GeometryType)
    (shift : Transform3D) (ls out : List (Option Layer)) (h : none ∈ ls) :
    cloneMultiLayer c shift ls out = .error .nullDereference := by
  induction ls generalizing out with
  | nil => simp at h
  | cons x rest ih =>
    cases x with
    | none => simp [cloneMultiLayer]
    | some lay =>
      have hrest : none ∈ rest := by simpa using h
      simp [cloneMultiLayer, ih _ hrest]

/-- Closed form of `clone` on an object with a wrapped volume and no empty multi-layer
entry. -/
theorem clone_eq
    (c : Collaborators Transform3D TrackingVolume Layer GeometrySignature GeometryType)
    (d : DetachedTrackingVolume TrackingVolume Layer) (name : String) (shift : Transform3D)
    (vol : TrackingVolume) (hvol : d.m_trkVolume = some vol)
    (hfull : none ∉ d.m_multilayerRepresentation) :
    clone c d name shift
      = .ok (constructor name (some (c.create vol shift))
          (d.m_layerRepresentation.map (fun lay => c.cloneWithShift lay shift))
          (d.m_multilayerRepresentation.map
            (Option.map (fun lay => c.cloneWithShift lay shift)))) := by
  unfold clone
  rw [hvol]
  have hlay : (match d.m_layerRepresentation with
      | some lay => some (c.cloneWithShift lay shift)
      | none => none)
      = d.m_layerRepresentation.map (fun lay => c.cloneWithShift lay shift) := by
    cases d.m_layerRepresentation <;> rfl
  simp only [hlay]
  by_cases hem : d.m_multilayerRepresentation = []
  · simp [hem]
  · have : d.m_multilayerRepresentation.isEmpty = false := by
      cases hd : d.m_multilayerRepresentation with
      | nil => exact absurd hd hem
      | cons a b => rfl
    simp [this, cloneMultiLayer_ok c shift _ [] hfull]

end Lemmas

/-- Cloning entries never turns a present entry into an empty pointer. -/
theorem none_not_mem_map {Layer : Type} (f : Layer → Layer) (ls : List (Option Layer))
    (h : none ∉ ls) : none ∉ ls.map (Option.map f) := by
  intro hm
  rcases List.mem_map.mp hm with ⟨x, hx, hfx⟩
  cases x with
  | none => exact h hx
  | some y => simp at hfx

section Clone

variable {Transform3D TrackingVolume Layer GeometrySignature GeometryType : Type}

/-- C1, as amended: for an object with a wrapped volume `vol` and no empty pointer in
its multi-layer vector, `clone name shift` returns an object named `name`, wrapping
`TrackingVolume::create(vol, shift)`, whose single layer is the source's layer cloned
with `shift` (absent when the source has none), and whose multi-layer vector has the
source's length with entry `i` the clone with `shift` of the source's entry `i`. -/
theorem clone_contract
    (c : Collaborators Transform3D TrackingVolume Layer GeometrySignature GeometryType)
    (d : DetachedTrackingVolume TrackingVolume Layer) (name : String) (shift : Transform3D)
    (vol : TrackingVolume) (hvol : d.m_trkVolume = some vol)
    (hfull : none ∉ d.m_multilayerRepresentation) :
    ∃ r, clone c d name shift = .ok r
      ∧ r.m_name = name
      ∧ r.m_trkVolume = some (c.create vol shift)
      ∧ r.m_layerRepresentation
          = d.m_layerRepresentation.map (fun lay => c.cloneWithShift lay shift)
      ∧ r.m_multilayerRepresentation.length = d.m_multilayerRepresentation.length
      ∧ (∀ (i : Nat) lay, d.m_multilayerRepresentation[i]? = some (some lay) →
          r.m_multilayerRepresentation[i]? = some (some (c.cloneWithShift lay shift)))
      ∧ (d.m_multilayerRepresentation = [] → r.m_multilayerRepresentation = []) := by
  refine ⟨_, clone_eq c d name shift vol hvol hfull, rfl, rfl, rfl, ?_, ?_, ?_⟩
  · simp [constructor]
  · intro i lay hi
    simp [constructor, hi]
  · intro he
    simp [constructor, he]

/-- Witness for `clone_contract` on the sample object. -/
theorem clone_contract_witness :
    sampleDetached.m_trkVolume = some sampleVolume
      ∧ none ∉ sampleDetached.m_multilayerRepresentation
      ∧ ∃ r, clone sampleCollaborators sampleDetached "copy" (DihedralGroup.sr 1) = .ok r
        ∧ r.m_name = "copy"
        ∧ r.m_trkVolume = some (sampleCollaborators.create sampleVolume (DihedralGroup.sr 1))
        ∧ r.m_layerRepresentation
            = sampleDetached.m_layerRepresentation.map
                (fun lay => sampleCollaborators.cloneWithShift lay (DihedralGroup.sr 1))
        ∧ r.m_multilayerRepresentation.length
            = sampleDetached.m_multilayerRepresentation.length
        ∧ (∀ (i : Nat) lay, sampleDetached.m_multilayerRepresentation[i]? = some (some lay) →
            r.m_multilayerRepresentation[i]?
              = some (some (sampleCollaborators.cloneWithShift lay (DihedralGroup.sr 1))))
        ∧ (sampleDetached.m_multilayerRepresentation = [] →
            r.m_multilayerRepresentation = []) :=
  ⟨rfl, by decide,
    clone_contract sampleCollaborators sampleDetached "copy" (DihedralGroup.sr 1)
      sampleVolume rfl (by decide)⟩

/-- C1 as stated fails: the sample object with an empty pointer among its multi-layer
entries has a wrapped volume, yet `clone` returns no object at all (the loop
dereferences the empty entry). -/
theorem clone_contract_counterexample :
    sampleWithGap.m_trkVolume = some sampleVolume
      ∧ ¬ ∃ r, clone sampleCollaborators sampleWithGap "copy" (DihedralGroup.sr 1) = .ok r := by
  refine ⟨rfl, ?_⟩
  rintro ⟨r, hr⟩
  have hf : clone sampleCollaborators sampleWithGap "copy" (DihedralGroup.sr 1)
      = .error .nullDereference := by
    simp [clone, sampleWithGap, constructor, cloneMultiLayer]
  rw [hf] at hr
  cases hr

/-- C5, as amended: when `TrackingVolume::create(v, s)` places its result at
`s * placement(v)`, and the object has a wrapped volume placed at `P` and no empty
pointer in its multi-layer vector, cloning with `T` and then with the inverse of `T`
yields an object whose wrapped volume sits at `inverse(T) * (T * P)` and whose
multi-layer vector has the original number of entries. No law of the transform
arithmetic is assumed: whenever that product is within a tolerance `near` of `P` the
volume is within that tolerance of its original placement, and whenever the product
evaluates to `P` the volume is exactly at its original placement. -/
theorem clone_round_trip [Mul Transform3D] [Inv Transform3D]
    (c : Collaborators Transform3D TrackingVolume Layer GeometrySignature GeometryType)
    (hcompose : ∀ v s, c.transform (c.create v s) = s * c.transform v)
    (d : DetachedTrackingVolume TrackingVolume Layer) (n1 n2 : String) (T : Transform3D)
    (vol : TrackingVolume) (hvol : d.m_trkVolume = some vol)
    (hfull : none ∉ d.m_multilayerRepresentation) :
    ∃ r1 r2, clone c d n1 T = .ok r1 ∧ clone c r1 n2 T⁻¹ = .ok r2
      ∧ (trackingVolume r2).map c.transform = some (T⁻¹ * (T * c.transform vol))
      ∧ (∀ near : Transform3D → Transform3D → Prop,
          near (T⁻¹ * (T * c.transform vol)) (c.transform vol) →
          ∃ Q, (trackingVolume r2).map c.transform = some Q ∧ near Q (c.transform vol))
      ∧ (T⁻¹ * (T * c.transform vol) = c.transform vol →
          (trackingVolume r2).map c.transform = some (c.transform vol))
      ∧ r2.m_multilayerRepresentation.length = d.m_multilayerRepresentation.length := by
  have h1 := clone_eq c d n1 T vol hvol hfull
  have hfull1 := none_not_mem_map (fun lay => c.cloneWithShift lay T) _ hfull
  have hplace : (trackingVolume (constructor n2 (some (c.create (c.create vol T) T⁻¹))
        ((constructor n1 (some (c.create vol T))
            (d.m_layerRepresentation.map (fun lay => c.cloneWithShift lay T))
            (d.m_multilayerRepresentation.map
              (Option.map (fun lay => c.cloneWithShift lay T)))).m_layerRepresentation.map
          (fun lay => c.cloneWithShift lay T⁻¹))
        ((constructor n1 (some (c.create vol T))
            (d.m_layerRepresentation.map (fun lay => c.cloneWithShift lay T))
            (d.m_multilayerRepresentation.map
              (Option.map (fun lay => c.cloneWithShift lay T)))).m_multilayerRepresentation.map
          (Option.map (fun lay => c.cloneWithShift lay T⁻¹))))).map c.transform
      = some (T⁻¹ * (T * c.transform vol)) := by
    simp [trackingVolume, constructor, hcompose]
  refine ⟨_, _, h1, clone_eq c _ n2 T⁻¹ (c.create vol T) rfl hfull1, hplace, ?_, ?_, ?_⟩
  · intro near hnear
    exact ⟨_, hplace, hnear⟩
  · intro hback
    rw [hplace, hback]
  · simp [constructor]

/-- Witness for `clone_round_trip` on the sample object, whose volume sits at the
quarter turn `r 1`: the flip `sr 1` and its inverse bring it back exactly. -/
theorem clone_round_trip_witness :
    (∀ v s, sampleCollaborators.transform (sampleCollaborators.create v s)
        = s * sampleCollaborators.transform v)
      ∧ sampleDetached.m_trkVolume = some sampleVolume
      ∧ none ∉ sampleDetached.m_multilayerRepresentation
      ∧ (DihedralGroup.sr 1)⁻¹ * (DihedralGroup.sr 1 * sampleCollaborators.transform sampleVolume)
          = sampleCollaborators.transform sampleVolume
      ∧ ∃ r1 r2, clone sampleCollaborators sampleDetached "there" (DihedralGroup.sr 1) = .ok r1
        ∧ clone sampleCollaborators r1 "back" (DihedralGroup.sr 1)⁻¹ = .ok r2
        ∧ (trackingVolume r2).map sampleCollaborators.transform = some (DihedralGroup.r 1)
        ∧ r2.m_multilayerRepresentation.length = 2 := by
  refine ⟨fun _ _ => rfl, rfl, by decide, by decide, ?_⟩
  obtain ⟨r1, r2, h1, h2, -, -, hexact, hlen⟩ :=
    clone_round_trip sampleCollaborators (fun _ _ => rfl) sampleDetached "there" "back"
      (DihedralGroup.sr 1) sampleVolume rfl (by decide)
  exact ⟨r1, r2, h1, h2, hexact (by decide), hlen⟩

/-- C5 as stated fails: on the sample collaborators (where `create` composes on the
left) the object with an empty multi-layer entry has a wrapped volume, but its first
clone already returns nothing, so there is no round trip. -/
theorem clone_round_trip_counterexample :
    (∀ v s, sampleCollaborators.transform (sampleCollaborators.create v s)
        = s * sampleCollaborators.transform v)
      ∧ sampleWithGap.m_trkVolume = some sampleVolume
      ∧ ¬ ∃ r1 r2, clone sampleCollaborators sampleWithGap "there" (DihedralGroup.r 1) = .ok r1
          ∧ clone sampleCollaborators r1 "back" (DihedralGroup.r 1)⁻¹ = .ok r2 := by
  refine ⟨fun _ _ => rfl, rfl, ?_⟩
  rintro ⟨r1, r2, h1, -⟩
  have hf : clone sampleCollaborators sampleWithGap "there" (DihedralGroup.r 1)
      = .error .nullDereference := by
    simp [clone, sampleWithGap, constructor, cloneMultiLayer]
  rw [hf] at h1
  cases h1

/-- C6, as amended: when a shift by the identity returns a geometrically equal volume
and layer, and the object has a wrapped volume and no empty pointer in its multi-layer
vector, `clone name 1` returns an object whose wrapped volume, single layer (same
presence) and multi-layer entries (same length, same order) are geometrically equal to
the source's, and whose base-transform pointer is null, so it neither holds nor shares
the source's stored base transform. -/
theorem clone_identity [One Transform3D]
    (c : Collaborators Transform3D TrackingVolume Layer GeometrySignature GeometryType)
    (geoVolume : TrackingVolume → TrackingVolume → Prop) (geoLayer : Layer → Layer → Prop)
    (hvolume : ∀ v, geoVolume (c.create v 1) v)
    (hlayer : ∀ lay, geoLayer (c.cloneWithShift lay 1) lay)
    (d : DetachedTrackingVolume TrackingVolume Layer) (name : String)
    (vol : TrackingVolume) (hvol : d.m_trkVolume = some vol)
    (hfull : none ∉ d.m_multilayerRepresentation) :
    ∃ r, clone c d name 1 = .ok r
      ∧ Option.Rel geoVolume r.m_trkVolume d.m_trkVolume
      ∧ Option.Rel geoLayer r.m_layerRepresentation d.m_layerRepresentation
      ∧ List.Forall₂ (Option.Rel geoLayer) r.m_multilayerRepresentation
          d.m_multilayerRepresentation
      ∧ r.m_baseTransform = none
      ∧ (∀ a, d.m_baseTransform = some a → r.m_baseTransform ≠ some a) := by
  have hopt : ∀ o : Option Layer,
      Option.Rel geoLayer (o.map (fun lay => c.cloneWithShift lay 1)) o := by
    intro o
    cases o with
    | none => exact Option.Rel.none
    | some lay => exact Option.Rel.some (hlayer lay)
  refine ⟨_, clone_eq c d name 1 vol hvol hfull, ?_, hopt _, ?_, rfl, ?_⟩
  · rw [hvol]
    exact Option.Rel.some (hvolume vol)
  · simp only [constructor]
    rw [List.forall₂_map_left_iff]
    exact List.forall₂_same.mpr (fun o _ => hopt o)
  · intro a _ h
    simp [constructor] at h

/-- Witness for `clone_identity`: on the sample collaborators a shift by the identity
returns an equal object, and the sample object is given a stored base transform. -/
theorem clone_identity_witness :
    (∀ v, sampleCollaborators.create v 1 = v)
      ∧ (∀ lay, sampleCollaborators.cloneWithShift lay 1 = lay)
      ∧ ({ sampleDetached with m_baseTransform := some 0 } :
            DetachedTrackingVolume SampleVolume SampleLayer).m_trkVolume = some sampleVolume
      ∧ ∃ r, clone sampleCollaborators { sampleDetached with m_baseTransform := some 0 }
            "copy" 1 = .ok r
        ∧ Option.Rel Eq r.m_trkVolume sampleDetached.m_trkVolume
        ∧ Option.Rel Eq r.m_layerRepresentation sampleDetached.m_layerRepresentation
        ∧ List.Forall₂ (Option.Rel Eq) r.m_multilayerRepresentation
            sampleDetached.m_multilayerRepresentation
        ∧ r.m_baseTransform = none
        ∧ (∀ a, some 0 = some a → r.m_baseTransform ≠ some a) :=
  ⟨fun v => by simp [sampleCollaborators], fun lay => by simp [sampleCollaborators], rfl,
    clone_identity sampleCollaborators Eq Eq (fun v => by simp [sampleCollaborators])
      (fun lay => by simp [sampleCollaborators])
      { sampleDetached with m_baseTransform := some 0 } "copy" sampleVolume rfl (by decide)⟩

/-- C6 as stated fails: on the sample collaborators (where the identity shift returns
an equal object) the object with an empty multi-layer entry has a wrapped volume, but
`clone` under the identity returns no object. -/
theorem clone_identity_counterexample :
    (∀ v, sampleCollaborators.create v 1 = v)
      ∧ (∀ lay, sampleCollaborators.cloneWithShift lay 1 = lay)
      ∧ sampleWithGap.m_trkVolume = some sampleVolume
      ∧ ¬ ∃ r, clone sampleCollaborators sampleWithGap "copy" 1 = .ok r := by
  refine ⟨fun v => by simp [sampleCollaborators], fun lay => by simp [sampleCollaborators],
    rfl, ?_⟩
  rintro ⟨r, hr⟩
  have hf : clone sampleCollaborators sampleWithGap "copy" 1
      = .error .nullDereference := by
    simp [clone, sampleWithGap, constructor, cloneMultiLayer]
  rw [hf] at hr
  cases hr

end Clone

section Realign

variable {Transform3D TrackingVolume Layer GeometrySignature GeometryType : Type}

/-- C2: `realign` with a supplied transform `t` invokes `move` exactly once, with
`t * inverse(P)` where `P` is the wrapped volume's placement, whether or not a base
transform is stored; `realign` with the null pointer and a stored base transform `B`
invokes `move` exactly once with `B * inverse(P)`; `realign` with the null pointer and
no stored base transform invokes `move` not at all and returns the state unchanged. -/
theorem realign_calls_move [Mul Transform3D] [Inv Transform3D]
    (c : Collaborators Transform3D TrackingVolume Layer GeometrySignature GeometryType)
    (st : State Transform3D TrackingVolume Layer) :
    (∀ vol p t, st.obj.m_trkVolume = some vol → st.heap.read p = some t →
        realign c st (some p)
          = .ok { st with moveCalls := st.moveCalls ++ [t * (c.transform vol)⁻¹] })
      ∧ (∀ vol b B, st.obj.m_trkVolume = some vol → st.obj.m_baseTransform = some b →
          st.heap.read b = some B →
          realign c st none
            = .ok { st with moveCalls := st.moveCalls ++ [B * (c.transform vol)⁻¹] })
      ∧ (st.obj.m_baseTransform = none → realign c st none = .ok st) := by
  refine ⟨?_, ?_, ?_⟩
  · intro vol p t hvol hp
    simp [realign, load, hp, trackingVolume, hvol, deref, move]
  · intro vol b B hvol hb hB
    simp [realign, hb, load, hB, trackingVolume, hvol, deref, move]
  · intro hb
    simp [realign, hb]

/-- Witness for `realign_calls_move` on the sample state (volume placed at `r 1`, base
transform `sr 2` at address 0, caller's transform `r 3` at address 1). -/
theorem realign_calls_move_witness :
    realign sampleCollaborators sampleState (some 1)
        = .ok { sampleState with moveCalls := [DihedralGroup.r 3 * (DihedralGroup.r 1)⁻¹] }
      ∧ realign sampleCollaborators sampleState none
        = .ok { sampleState with moveCalls := [DihedralGroup.sr 2 * (DihedralGroup.r 1)⁻¹] }
      ∧ realign sampleCollaborators freshState none = .ok freshState :=
  ⟨(realign_calls_move sampleCollaborators sampleState).1 sampleVolume 1 (DihedralGroup.r 3)
      rfl rfl,
    (realign_calls_move sampleCollaborators sampleState).2.1 sampleVolume 0
      (DihedralGroup.sr 2) rfl rfl rfl,
    (realign_calls_move sampleCollaborators freshState).2.2 rfl⟩

/-- Reading the cell that `alloc` has just appended. -/
theorem read_alloc (h : Heap Transform3D) (t : Transform3D) :
    (h.alloc t).1.read (h.alloc t).2 = some t := by
  simp [Heap.alloc, Heap.read]

/-- `delete` of a base-transform pointer that is null or live succeeds. -/
theorem deleteTransform_owned (h : Heap Transform3D) (q : Option Addr)
    (hq : q = none ∨ ∃ b B, q = some b ∧ h.read b = some B) :
    ∃ h1, deleteTransform h q = .ok h1 := by
  rcases hq with rfl | ⟨b, B, rfl, hB⟩
  · exact ⟨h, rfl⟩
  · exact ⟨⟨h.cells.set b none⟩, by simp [deleteTransform, Heap.free, hB]⟩

/-- Closed form of `setBaseTransform(nullptr)` once the `delete` has succeeded on an
object with a wrapped volume. -/
theorem setBaseTransform_reset_eq
    (c : Collaborators Transform3D TrackingVolume Layer GeometrySignature GeometryType)
    (st : State Transform3D TrackingVolume Layer) (vol : TrackingVolume)
    (hvol : st.obj.m_trkVolume = some vol) (h1 : Heap Transform3D)
    (hdel : deleteTransform st.heap st.obj.m_baseTransform = .ok h1) :
    setBaseTransform c st none
      = .ok { st with heap := (h1.alloc (c.transform vol)).1,
                      obj := { st.obj with
                        m_baseTransform := some (h1.alloc (c.transform vol)).2 } } := by
  simp [setBaseTransform, hdel, trackingVolume, hvol, deref]

/-- Closed form of `realign(nullptr)` through the stored base transform. -/
theorem realign_stored_eq [Mul Transform3D] [Inv Transform3D]
    (c : Collaborators Transform3D TrackingVolume Layer GeometrySignature GeometryType)
    (st : State Transform3D TrackingVolume Layer) (vol : TrackingVolume)
    (hvol : st.obj.m_trkVolume = some vol) (b : Addr) (B : Transform3D)
    (hb : st.obj.m_baseTransform = some b) (hB : st.heap.read b = some B) :
    realign c st none
      = .ok { st with moveCalls := st.moveCalls ++ [B * (c.transform vol)⁻¹] } := by
  simp [realign, hb, load, hB, trackingVolume, hvol, deref, move]

/-- C3: for an object whose wrapped volume is placed at `T` and whose base-transform
pointer is null or live, `setBaseTransform(nullptr)` succeeds and stores a base
transform equal to `T`, changing nothing else in the object; a following
`realign(nullptr)` invokes `move` once with the shift `T * inverse(T)` and leaves the
object (placement, layers) and the free store as they were. No law of the transform
arithmetic is assumed: the shift is the identity whenever `T * inverse(T)` evaluates to
the identity, that is whenever `T` is invertible under the program's own product and
inverse. -/
theorem reset_then_realign [Mul Transform3D] [Inv Transform3D] [One Transform3D]
    (c : Collaborators Transform3D TrackingVolume Layer GeometrySignature GeometryType)
    (st : State Transform3D TrackingVolume Layer) (vol : TrackingVolume)
    (hvol : st.obj.m_trkVolume = some vol)
    (howned : st.obj.m_baseTransform = none
      ∨ ∃ b B, st.obj.m_baseTransform = some b ∧ st.heap.read b = some B) :
    ∃ st1 a, setBaseTransform c st none = .ok st1
      ∧ st1.obj = { st.obj with m_baseTransform := some a }
      ∧ st1.heap.read a = some (c.transform vol)
      ∧ realign c st1 none
          = .ok { st1 with
              moveCalls := st1.moveCalls ++ [c.transform vol * (c.transform vol)⁻¹] }
      ∧ (c.transform vol * (c.transform vol)⁻¹ = 1 →
          realign c st1 none = .ok { st1 with moveCalls := st1.moveCalls ++ [1] }) := by
  obtain ⟨h1, hdel⟩ := deleteTransform_owned st.heap st.obj.m_baseTransform howned
  have hre := realign_stored_eq c
    { st with heap := (h1.alloc (c.transform vol)).1,
              obj := { st.obj with m_baseTransform := some (h1.alloc (c.transform vol)).2 } }
    vol hvol (h1.alloc (c.transform vol)).2 (c.transform vol) rfl (read_alloc _ _)
  refine ⟨_, (h1.alloc (c.transform vol)).2, setBaseTransform_reset_eq c st vol hvol h1 hdel,
    rfl, read_alloc _ _, hre, ?_⟩
  intro hinv
  rw [hre, hinv]

/-- Witness for `reset_then_realign` on the sample state, which holds a live base
transform and whose volume sits at the quarter turn `r 1`, an invertible placement. -/
theorem reset_then_realign_witness :
    sampleState.obj.m_trkVolume = some sampleVolume
      ∧ (sampleState.obj.m_baseTransform = none
          ∨ ∃ b B, sampleState.obj.m_baseTransform = some b ∧ sampleState.heap.read b = some B)
      ∧ sampleCollaborators.transform sampleVolume
          * (sampleCollaborators.transform sampleVolume)⁻¹ = 1
      ∧ ∃ st1 a, setBaseTransform sampleCollaborators sampleState none = .ok st1
        ∧ st1.obj = { sampleState.obj with m_baseTransform := some a }
        ∧ st1.heap.read a = some (DihedralGroup.r 1)
        ∧ realign sampleCollaborators st1 none
            = .ok { st1 with moveCalls := st1.moveCalls ++ [1] } := by
  refine ⟨rfl, Or.inr ⟨0, DihedralGroup.sr 2, rfl, rfl⟩, by decide, ?_⟩
  obtain ⟨st1, a, h1, h2, h3, -, h5⟩ :=
    reset_then_realign sampleCollaborators sampleState sampleVolume rfl
      (Or.inr ⟨0, DihedralGroup.sr 2, rfl, rfl⟩)
  exact ⟨st1, a, h1, h2, h3, h5 (by decide)⟩

end Realign

section MoveAndBase

/-- On every state and for every shift, `move` returns normally and changes neither the
object nor the free store; only the ghost call record grows by the shift. -/
theorem move_frame {Transform3D TrackingVolume Layer : Type}
    (st : State Transform3D TrackingVolume Layer) (shift : Transform3D) :
    move st shift = .ok { st with moveCalls := st.moveCalls ++ [shift] } :=
  rfl

/-- On every state, `setBaseTransform` with a supplied pointer stores the pointer and
touches neither the free store nor any other member. -/
theorem setBaseTransform_supplied
    {Transform3D TrackingVolume Layer GeometrySignature GeometryType : Type}
    (c : Collaborators Transform3D TrackingVolume Layer GeometrySignature GeometryType)
    (st : State Transform3D TrackingVolume Layer) (p : Addr) :
    setBaseTransform c st (some p)
      = .ok { st with obj := { st.obj with m_baseTransform := some p } } :=
  rfl

/-- C4, the code at a failing input: `move` with the flip `sr 1` on the sample state
(volume at `r 1`, one single layer, two multi-layer entries) returns with the object and
the free store exactly as before; the wrapped volume is still placed at `r 1`, which is
not `sr 1 * r 1`, and the single layer is not the shifted one. -/
theorem move_leaves_object_in_place :
    ∃ st1, move sampleState (DihedralGroup.sr 1) = .ok st1
      ∧ st1.obj = sampleState.obj
      ∧ st1.heap = sampleState.heap
      ∧ (trackingVolume st1.obj).map sampleCollaborators.transform = some (DihedralGroup.r 1)
      ∧ DihedralGroup.sr 1 * DihedralGroup.r 1 ≠ (DihedralGroup.r 1 : DihedralGroup 4)
      ∧ st1.obj.m_layerRepresentation
          ≠ sampleState.obj.m_layerRepresentation.map
              (fun lay => sampleCollaborators.cloneWithShift lay (DihedralGroup.sr 1)) := by
  refine ⟨_, rfl, rfl, rfl, rfl, by decide, by decide⟩

/-- C7, the code at a failing input: the sample object is constructed, given a base
transform by `setBaseTransform(nullptr)` (allocated at address 1), and then handed the
caller's transform at address 0. Afterwards the stored pointer is address 0 and the
rest of the object is unchanged, but the transform at address 1 is still alive and no
longer referenced: it has not been released. The reset path on the same state does
release it. -/
theorem setBaseTransform_keeps_old_alive :
    ∃ st1 st2 st3, setBaseTransform sampleCollaborators freshState none = .ok st1
      ∧ st1.obj.m_baseTransform = some 1
      ∧ st1.heap.read 1 = some (DihedralGroup.r 1)
      ∧ setBaseTransform sampleCollaborators st1 (some 0) = .ok st2
      ∧ st2.obj = { st1.obj with m_baseTransform := some 0 }
      ∧ st2.heap.read 1 = some (DihedralGroup.r 1)
      ∧ setBaseTransform sampleCollaborators st1 none = .ok st3
      ∧ st3.heap.read 1 = none := by
  refine ⟨_, _, _, rfl, rfl, rfl, rfl, rfl, rfl, rfl, rfl⟩

end MoveAndBase

section Signing

variable {Transform3D TrackingVolume Layer GeometrySignature GeometryType : Type}

/-- C8: for an object wrapping a volume `vol`, `geometrySignature()` and
`geometryType()` return the signature and the type of `vol`, and `sign(signat,
geotype)` replaces `vol` by the result of `vol.sign(signat, geotype)` and leaves the
name, the layer representations, the base-transform pointer and the constituents as
they were. -/
theorem sign_pass_through
    (c : Collaborators Transform3D TrackingVolume Layer GeometrySignature GeometryType)
    (d : DetachedTrackingVolume TrackingVolume Layer) (vol : TrackingVolume)
    (hvol : d.m_trkVolume = some vol) (signat : GeometrySignature) (geotype : GeometryType) :
    geometrySignature c d = .ok (c.geometrySignature vol)
      ∧ geometryType c d = .ok (c.geometryType vol)
      ∧ ∃ r, sign c d signat geotype = .ok r
        ∧ r.m_trkVolume = some (c.sign vol signat geotype)
        ∧ r.m_name = d.m_name
        ∧ r.m_layerRepresentation = d.m_layerRepresentation
        ∧ r.m_multilayerRepresentation = d.m_multilayerRepresentation
        ∧ r.m_baseTransform = d.m_baseTransform
        ∧ r.m_constituents = d.m_constituents := by
  refine ⟨by simp [geometrySignature, hvol], by simp [geometryType, hvol],
    { d with m_trkVolume := some (c.sign vol signat geotype) }, ?_, rfl, rfl, rfl, rfl, rfl,
    rfl⟩
  simp [sign, hvol]

/-- Witness for `sign_pass_through` on the sample object. -/
theorem sign_pass_through_witness :
    sampleState.obj.m_trkVolume = some sampleVolume
      ∧ geometrySignature sampleCollaborators sampleState.obj = .ok 0
      ∧ geometryType sampleCollaborators sampleState.obj = .ok 0
      ∧ ∃ r, sign sampleCollaborators sampleState.obj 4 2 = .ok r
        ∧ r.m_trkVolume = some (sampleCollaborators.sign sampleVolume 4 2)
        ∧ r.m_name = sampleState.obj.m_name
        ∧ r.m_layerRepresentation = sampleState.obj.m_layerRepresentation
        ∧ r.m_multilayerRepresentation = sampleState.obj.m_multilayerRepresentation
        ∧ r.m_baseTransform = sampleState.obj.m_baseTransform
        ∧ r.m_constituents = sampleState.obj.m_constituents :=
  ⟨rfl, sign_pass_through sampleCollaborators sampleState.obj sampleVolume rfl 4 2⟩

end Signing

section LayerCreator

/-- C9: whatever the envelopes, the bin counts, the transform and the approach
descriptor, `discLayer` on the empty surface collection fails with
`InvalidGeometryInput`, hence returns no layer. -/
theorem discLayer_empty {Transform3D ApproachDescriptor : Type}
    (defaultApproach : ApproachDescriptor) (envelopeMinR envelopeMaxR envelopeZ : ℚ)
    (binsR binsPhi : Nat) (transform : Option Transform3D) (ad : Option ApproachDescriptor) :
    discLayer defaultApproach [] envelopeMinR envelopeMaxR envelopeZ binsR binsPhi transform ad
        = .error .InvalidGeometryInput
      ∧ ¬ ∃ layer, discLayer defaultApproach [] envelopeMinR envelopeMaxR envelopeZ binsR
            binsPhi transform ad = .ok layer := by
  refine ⟨rfl, ?_⟩
  rintro ⟨layer, h⟩
  cases h

end LayerCreator

section NullSafety

variable {Transform3D TrackingVolume Layer GeometrySignature GeometryType : Type}

/-- The `delete` expression never dereferences a null pointer: its only fault is the
release of an address that is not live. -/
theorem deleteTransform_fault (h : Heap Transform3D) (q : Option Addr) :
    deleteTransform h q ≠ .error .nullDereference := by
  cases q with
  | none => simp [deleteTransform]
  | some a =>
    cases ha : h.read a with
    | none => simp [deleteTransform, Heap.free, ha]
    | some t => simp [deleteTransform, Heap.free, ha]

/-- C10: on every state whose object has a wrapped volume and no empty pointer in its
multi-layer vector, whatever its single layer and its base-transform pointer, `clone`,
`geometrySignature`, `geometryType` and `sign` return normally, and
`setBaseTransform` and `realign` never dereference a null pointer, for the null and
for any supplied argument; each of them keeps the wrapped volume present and the
multi-layer entries present, so the same holds after any sequence of these members
(in particular `realign` through the base transform stored by
`setBaseTransform(nullptr)` returns normally). The four-argument constructor with a
present volume and such a vector builds such an object, including with no single
layer and an empty vector. On the default-constructed object (name "undefined")
`clone`, `geometrySignature`, `geometryType` and `setBaseTransform(nullptr)` all
dereference the missing volume. -/
theorem null_safety [Mul Transform3D] [Inv Transform3D]
    (c : Collaborators Transform3D TrackingVolume Layer GeometrySignature GeometryType)
    (st : State Transform3D TrackingVolume Layer) (vol : TrackingVolume)
    (hvol : st.obj.m_trkVolume = some vol)
    (hfull : none ∉ st.obj.m_multilayerRepresentation) :
    ((∀ n s, ∃ r, clone c st.obj n s = .ok r
          ∧ r.m_trkVolume = some (c.create vol s) ∧ none ∉ r.m_multilayerRepresentation)
      ∧ (∃ g, geometrySignature c st.obj = .ok g)
      ∧ (∃ t, geometryType c st.obj = .ok t)
      ∧ (∀ sg ty, ∃ r, sign c st.obj sg ty = .ok r
          ∧ r.m_trkVolume = some (c.sign vol sg ty)
          ∧ r.m_multilayerRepresentation = st.obj.m_multilayerRepresentation)
      ∧ (∀ transf, setBaseTransform c st transf ≠ .error .nullDereference
          ∧ ∀ st1, setBaseTransform c st transf = .ok st1 →
              st1.obj.m_trkVolume = some vol
              ∧ st1.obj.m_multilayerRepresentation = st.obj.m_multilayerRepresentation)
      ∧ (∀ transf, realign c st transf ≠ .error .nullDereference
          ∧ ∀ st1, realign c st transf = .ok st1 → st1.obj = st.obj)
      ∧ ((st.obj.m_baseTransform = none
            ∨ ∃ b B, st.obj.m_baseTransform = some b ∧ st.heap.read b = some B) →
          ∃ st1 st2 a, setBaseTransform c st none = .ok st1
            ∧ st1.obj.m_baseTransform = some a
            ∧ realign c st1 none = .ok st2))
    ∧ (∀ (name : String) (layer : Option Layer) (multiLayer : List (Option Layer)),
        none ∉ multiLayer →
          (constructor name (some vol) layer multiLayer).m_trkVolume = some vol
          ∧ none ∉ (constructor name (some vol) layer multiLayer).m_multilayerRepresentation
          ∧ (constructor name (some vol) layer multiLayer).m_baseTransform = none)
    ∧ ((defaultConstructor : DetachedTrackingVolume TrackingVolume Layer).m_name = "undefined"
      ∧ (∀ n s, clone c (defaultConstructor : DetachedTrackingVolume TrackingVolume Layer) n s
            = .error .nullDereference)
      ∧ geometrySignature c (defaultConstructor : DetachedTrackingVolume TrackingVolume Layer)
            = .error .nullDereference
      ∧ geometryType c (defaultConstructor : DetachedTrackingVolume TrackingVolume Layer)
            = .error .nullDereference
      ∧ (∀ heap calls, setBaseTransform c ⟨heap, defaultConstructor, calls⟩ none
            = .error .nullDereference)) := by
  refine ⟨⟨?_, ?_, ?_, ?_, ?_, ?_, ?_⟩, ?_, rfl, fun _ _ => rfl, rfl, rfl, fun _ _ => rfl⟩
  · intro n s
    exact ⟨_, clone_eq c _ n s vol hvol hfull, rfl, none_not_mem_map _ _ hfull⟩
  · exact ⟨c.geometrySignature vol, by simp [geometrySignature, hvol]⟩
  · exact ⟨c.geometryType vol, by simp [geometryType, hvol]⟩
  · intro sg ty
    exact ⟨{ st.obj with m_trkVolume := some (c.sign vol sg ty) }, by simp [sign, hvol],
      rfl, rfl⟩
  · intro transf
    cases transf with
    | some p =>
      refine ⟨by simp [setBaseTransform], ?_⟩
      intro st1 h
      simp only [setBaseTransform, Except.ok.injEq] at h
      subst h
      exact ⟨hvol, rfl⟩
    | none =>
      cases hdel : deleteTransform st.heap st.obj.m_baseTransform with
      | error e =>
        have hne := deleteTransform_fault st.heap st.obj.m_baseTransform
        rw [hdel] at hne
        refine ⟨?_, ?_⟩
        · simpa [setBaseTransform, hdel] using hne
        · intro st1 h
          simp [setBaseTransform, hdel] at h
      | ok h1 =>
        rw [setBaseTransform_reset_eq c st vol hvol h1 hdel]
        refine ⟨by simp, ?_⟩
        intro st1 h
        simp only [Except.ok.injEq] at h
        subst h
        exact ⟨hvol, rfl⟩
  · intro transf
    cases transf with
    | some p =>
      cases hp : st.heap.read p with
      | none => simp [realign, load, hp]
      | some t =>
        refine ⟨by simp [realign, load, hp, trackingVolume, hvol, deref, move], ?_⟩
        intro st1 h
        simp only [realign, load, hp, trackingVolume, hvol, deref, move,
          Except.ok.injEq] at h
        subst h
        rfl
    | none =>
      cases hb : st.obj.m_baseTransform with
      | none =>
        refine ⟨by simp [realign, hb], ?_⟩
        intro st1 h
        simp only [realign, hb, Except.ok.injEq] at h
        subst h
        rfl
      | some b =>
        cases hB : st.heap.read b with
        | none => simp [realign, hb, load, hB]
        | some B =>
          rw [realign_stored_eq c st vol hvol b B hb hB]
          refine ⟨by simp, ?_⟩
          intro st1 h
          simp only [Except.ok.injEq] at h
          subst h
          rfl
  · intro howned
    obtain ⟨h1, hdel⟩ := deleteTransform_owned st.heap st.obj.m_baseTransform howned
    exact ⟨_, _, (h1.alloc (c.transform vol)).2,
      setBaseTransform_reset_eq c st vol hvol h1 hdel, rfl,
      realign_stored_eq c
        { st with heap := (h1.alloc (c.transform vol)).1,
                  obj := { st.obj with
                    m_baseTransform := some (h1.alloc (c.transform vol)).2 } }
        vol hvol (h1.alloc (c.transform vol)).2 (c.transform vol) rfl (read_alloc _ _)⟩
  · intro name layer multiLayer hm
    exact ⟨rfl, hm, rfl⟩

/-- Witness for `null_safety`, on the sample state (built by the constructor with a
single layer and two multi-layer entries, then holding a live base transform at address
0) and on the bare object (no single layer, empty vector, no base transform). -/
theorem null_safety_witness :
    (sampleState.obj.m_trkVolume = some sampleVolume
      ∧ none ∉ sampleState.obj.m_multilayerRepresentation
      ∧ (∃ r, clone sampleCollaborators sampleState.obj "copy" (DihedralGroup.r 2) = .ok r
          ∧ r.m_trkVolume
              = some (sampleCollaborators.create sampleVolume (DihedralGroup.r 2))
          ∧ none ∉ r.m_multilayerRepresentation)
      ∧ (∀ transf, realign sampleCollaborators sampleState transf ≠ .error .nullDereference)
      ∧ (∃ st1 st2 a, setBaseTransform sampleCollaborators sampleState none = .ok st1
          ∧ st1.obj.m_baseTransform = some a
          ∧ realign sampleCollaborators st1 none = .ok st2))
    ∧ (none ∉ ([] : List (Option SampleLayer))
      ∧ (∃ r, clone sampleCollaborators (constructor "bare" (some sampleVolume) none []) "copy"
            (DihedralGroup.r 2) = .ok r
          ∧ r.m_trkVolume
              = some (sampleCollaborators.create sampleVolume (DihedralGroup.r 2))
          ∧ none ∉ r.m_multilayerRepresentation)
      ∧ (∀ transf, setBaseTransform sampleCollaborators
            ⟨sampleStore, constructor "bare" (some sampleVolume) none [], []⟩ transf
            ≠ .error .nullDereference)
      ∧ clone sampleCollaborators
            (defaultConstructor : DetachedTrackingVolume SampleVolume SampleLayer) "copy"
            (DihedralGroup.r 2) = .error .nullDereference) :=
  ⟨⟨rfl, by decide,
      (null_safety sampleCollaborators sampleState sampleVolume rfl (by decide)).1.1
        "copy" (DihedralGroup.r 2),
      fun transf =>
        ((null_safety sampleCollaborators sampleState sampleVolume rfl
          (by decide)).1.2.2.2.2.2.1 transf).1,
      (null_safety sampleCollaborators sampleState sampleVolume rfl (by decide)).1.2.2.2.2.2.2
        (Or.inr ⟨0, DihedralGroup.sr 2, rfl, rfl⟩)⟩,
    ⟨by simp,
      (null_safety sampleCollaborators
        ⟨sampleStore, constructor "bare" (some sampleVolume) none [], []⟩ sampleVolume rfl
        (by simp [constructor])).1.1 "copy" (DihedralGroup.r 2),
      fun transf =>
        ((null_safety sampleCollaborators
          ⟨sampleStore, constructor "bare" (some sampleVolume) none [], []⟩ sampleVolume rfl
          (by simp [constructor])).1.2.2.2.2.1 transf).1,
      (null_safety sampleCollaborators
        ⟨sampleStore, constructor "bare" (some sampleVolume) none [], []⟩ sampleVolume rfl
        (by simp [constructor])).2.2.2.1 "copy" (DihedralGroup.r 2)⟩⟩

end NullSafety

end Acts
